import Mathlib

/-
  Verification development for the UniversalJobScraperV73 crawl-and-extract
  pipeline (src/agents/scraper.py).

  Modelling conventions:
  * Python strings are Lean `String`s; slicing, `len`, `lower`, `strip` act on
    the codepoint list `String.data`.
  * BeautifulSoup queries are modelled by a `Page` record carrying, for each
    CSS query the scraper performs, the query's result (texts / hrefs).  The
    raw html string is kept as well, since the code uses it directly in
    `extract_emails` and as the detail-text fallback.
  * External library functions that the scraper calls but whose code is not
    part of this repository are abstracted as function parameters:
    `join` models `urllib.parse.urljoin`, `md5hex` models
    `hashlib.md5(...).hexdigest()`, `findEmails` models `re.findall` of the
    email pattern, and `enumSet` models the unspecified enumeration order of
    `list(set(...))` (CPython string-set iteration order is hash-seed
    dependent; the code guarantees only that the result enumerates the
    distinct elements once each).
  * The regular expressions appearing literally in the scraper are translated
    into executable scanners over `List Char`, with Python `re` semantics:
    left-to-right non-overlapping matches, ordered alternation, greedy
    quantifiers.
-/

/-- Python whitespace class (regex backslash-s over ASCII, also the set
stripped by `str.strip`). -/
def pyWs (c : Char) : Bool :=
  c = ' ' || c = '\t' || c = '\n' || c = '\r' || c = '\x0b' || c = '\x0c'

/-- Python `str.strip()` on a character list. -/
def stripWs (s : List Char) : List Char :=
  ((s.dropWhile pyWs).reverse.dropWhile pyWs).reverse

/-- Python `str.lower()` (ASCII). -/
def lowerStr (s : String) : String := String.mk (s.data.map Char.toLower)

/-- Python slice `s[:n]` (by codepoints). -/
def pyTake (n : Nat) (s : String) : String := String.mk (s.data.take n)

/-- Python `len` on a string. -/
def pyLen (s : String) : Nat := s.data.length

/-- Match a literal pattern at the start of a string, case-insensitively when
`ci` is set; returns the remainder after the match. -/
def matchStart (ci : Bool) : List Char → List Char → Option (List Char)
  | [], s => some s
  | _ :: _, [] => none
  | p :: ps, c :: cs =>
      if (if ci then p.toLower = c.toLower else p = c) then matchStart ci ps cs
      else none

/-- Ordered alternation at the start of a string: the first alternative that
matches wins (Python regex alternation semantics). -/
def matchAlts (ci : Bool) : List (List Char) → List Char → Option (List Char)
  | [], _ => none
  | a :: rest, s =>
      match matchStart ci a s with
      | some r => some r
      | none => matchAlts ci rest s

/-- Python `pat in s` substring test (case-insensitive when `ci`). -/
def containsSub (ci : Bool) (pat : List Char) : List Char → Bool
  | [] => pat.isEmpty
  | c :: cs => (matchStart ci pat (c :: cs)).isSome || containsSub ci pat cs

/-- Substring test on strings. -/
def containsStr (ci : Bool) (pat s : String) : Bool := containsSub ci pat.data s.data

/-- Left-to-right non-overlapping deletion of every match of an ordered
alternation, as performed by `re.sub(alt1|alt2|..., '', s)` (and by
`str.replace(pat, '')` for a single alternative).  Fuelled structurally; fuel
equal to the string length suffices since every step consumes input or fuel. -/
def subAlts (ci : Bool) (alts : List (List Char)) : Nat → List Char → List Char
  | 0, s => s
  | _ + 1, [] => []
  | n + 1, c :: cs =>
      match matchAlts ci alts (c :: cs) with
      | some rest => subAlts ci alts n rest
      | none => c :: subAlts ci alts n cs

/-- String wrapper for `subAlts`. -/
def subAltsStr (ci : Bool) (alts : List String) (s : String) : String :=
  String.mk (subAlts ci (alts.map String.data) s.data.length s.data)

/-- Collapse every whitespace run to one space:
`re.sub(r'\x5cs+', ' ', s)`.  The boolean tracks whether we are inside a
whitespace run. -/
def collapseWsAux : Bool → List Char → List Char
  | _, [] => []
  | inRun, c :: cs =>
      if pyWs c then
        if inRun then collapseWsAux true cs else ' ' :: collapseWsAux true cs
      else c :: collapseWsAux false cs

/-- Does the suffix starting here satisfy the predicate somewhere
(`re.search` existence)? -/
def anySuffix (p : List Char → Bool) : List Char → Bool
  | [] => p []
  | c :: cs => p (c :: cs) || anySuffix p cs

/-! ## Data model (output schema of scraper.py) -/

/-- One `<a href=...>` element of a rendered page: its href attribute, its
`get_text(strip=True)` text, and its parent container's
`get_text(separator=' ', strip=True)` text (none when the anchor has no
parent container). -/
structure Anchor where
  href : String
  title : String
  parentText : Option String
deriving DecidableEq

/-- A rendered page as the scraper observes it through BeautifulSoup.
`nextHrefs` lists, for each of the five `next_selectors` in
`detect_pagination`, the `select_one(...).get('href')` result; `pageLinkHrefs`
lists the hrefs of `.pagination a` elements; `titleElems` lists the texts of
the `['title', 'h1', '.company-name']` query results of
`auto_detect_company`; `mainContent` is the text of
`select_one('main, article, .job-description, [class*="desc"], .content')`. -/
structure Page where
  html : String
  anchors : List Anchor
  nextHrefs : List (Option String)
  pageLinkHrefs : List String
  titleElems : List (Option String)
  pageText : String
  mainContent : Option String
deriving DecidableEq

/-- A candidate job link assembled by `find_universal_jobs`. -/
structure RawJob where
  title : String
  job_id : String
  url : String
  context : String
deriving DecidableEq

/-- The location dictionary produced by `clean_location`. -/
structure JobLocation where
  city : String
  state : Option String
  country : String
  postal_code : Option String
  region : String
  remote : Bool
  hybrid : Bool
  relocation_supported : Bool
deriving DecidableEq

structure JobIdentifiers where
  internal_job_id : String
  source_job_id : String
  canonical_hash : String
deriving DecidableEq

structure Employment where
  employment_type : String
  contract : String
  work_shift : String
deriving DecidableEq

structure JobDescription where
  summary : String
  responsibilities : List String
  qualifications : List String
deriving DecidableEq

structure EducationRequirements where
  minimum_degree : String
  accepted_degrees : List String
  preferred_fields : List String
deriving DecidableEq

structure ExperienceRequirements where
  minimum_years : Nat
  maximum_years : Option Nat
  level_description : String
deriving DecidableEq

structure ApplicationBlock where
  apply_url : String
  application_method : String
  resume_required : Bool
  cover_letter_required : Bool
deriving DecidableEq

structure PostingInfo where
  posted_date : Option String
  last_updated : String
  job_status : String
deriving DecidableEq

structure ExtractionQuality where
  description_cleaned : Bool
  skills_confidence : ℚ
  location_confidence : ℚ
deriving DecidableEq

/-- One finalized job dictionary (`perfect_job` in `scrape_single_url`). -/
structure JobRecord where
  job_identifiers : JobIdentifiers
  title : String
  normalized_title : String
  seniority_level : String
  employment : Employment
  department : String
  category : String
  location : JobLocation
  job_description : JobDescription
  skills : List (String × Nat)
  education_requirements : EducationRequirements
  experience_requirements : ExperienceRequirements
  compensation_salary_available : Bool
  application : ApplicationBlock
  posting_info : PostingInfo
  extraction_quality : ExtractionQuality
deriving DecidableEq

/-- The `source` block of the result document.  The `error` key is absent
(`none`) until the top-level exception handler attaches a message. -/
structure SourceInfo where
  company_name : String
  company_domain : String
  careers_page : String
  scraping_engine : String
  scraped_at : String
  scrape_status : String
  country_of_origin : String
  error : Option String
deriving DecidableEq

structure CompanyProfile where
  industry : String
  business_type : String
  operating_countries : Nat
  employee_size_range : String
  diversity_statement_present : Bool
  equal_opportunity_employer : Bool
deriving DecidableEq

structure ContactInfo where
  privacy_email : String
  accommodation_email : String
deriving DecidableEq

/-- Model of `scraping_metadata`: the initial dict carries only the three counters;
the other three keys are added by the success-path `update`, hence `Option`. -/
structure ScrapingMetadata where
  total_jobs_found : Nat
  jobs_successfully_parsed : Nat
  pages_scraped : Nat
  unique_jobs : Option Nat
  jobs_with_skills : Option Nat
  remote_jobs : Option Nat
deriving DecidableEq

structure DataQuality where
  overall_confidence : ℚ
  manual_review_required : Bool
deriving DecidableEq

/-- The full `ResultDocument`. -/
structure ResultDoc where
  schema_version : String
  source : SourceInfo
  company_profile : CompanyProfile
  jobs : List JobRecord
  contact_information : ContactInfo
  scraping_metadata : ScrapingMetadata
  data_quality : DataQuality

/-- Constant `MAX_JOBS` = 15, the hard output cap of the scraper class. -/
def MAX_JOBS : Nat := 15

/-- Constant `INVALID_TITLES` of the scraper class. -/
def INVALID_TITLES : List String :=
  ["search", "filter", "loading", "view all", "clear text", "previous job", "next job"]

/-- Constant `SKILLS_DATABASE` of the scraper class, in dict insertion order. -/
def SKILLS_DATABASE : List (String × List String) :=
  [("programming", ["java", "python", "javascript", "typescript", "c++", "c#"]),
   ("frontend", ["react", "angular", "vue", "html", "css"]),
   ("backend", ["node", "spring", "django", "flask"]),
   ("database", ["sql", "mysql", "postgresql", "mongodb", "oracle"]),
   ("cloud", ["aws", "azure", "gcp", "kubernetes", "docker"]),
   ("devops", ["jenkins", "gitlab", "github", "ansible"])]

/-! ## detect_pagination -/

/-- Loop over `next_selectors`: each entry of `hrefs` is one selector's
`select_one` result; a found, non-empty href is resolved with `urljoin` and
appended when not already collected (scraper.py lines 64-75). -/
def addNextLinks (join : String → String → String) (base : String) :
    List (Option String) → List String → List String
  | [], acc => acc
  | none :: rest, acc => addNextLinks join base rest acc
  | some href :: rest, acc =>
      if href = "" then addNextLinks join base rest acc
      else
        let u := join base href
        addNextLinks join base rest (if acc.contains u then acc else acc ++ [u])

/-- Regex `from=\x5cd+|page=\x5cd+` applied with `re.search`: some suffix
starts with `from=` or `page=` followed by a digit. -/
def digitAfter (pat : List Char) (s : List Char) : Bool :=
  match matchStart false pat s with
  | some (d :: _) => d.isDigit
  | some [] => false
  | none => false

def hasPageParam (s : List Char) : Bool :=
  anySuffix (fun t => digitAfter "from=".data t || digitAfter "page=".data t) s

/-- Loop over `.pagination a` links (scraper.py lines 78-84): an href whose
target matches the page-number regex is appended when new and when fewer than
20 URLs are collected so far. -/
def addPageLinks (join : String → String → String) (base : String) :
    List String → List String → List String
  | [], acc => acc
  | href :: rest, acc =>
      if hasPageParam href.data then
        let u := join base href
        if !acc.contains u && acc.length < 20 then addPageLinks join base rest (acc ++ [u])
        else addPageLinks join base rest acc
      else addPageLinks join base rest acc

/-- Model of `detect_pagination(soup, base_url)` (scraper.py lines 60-86). -/
def detect_pagination (join : String → String → String) (p : Page) (base : String) :
    List String :=
  (addPageLinks join base p.pageLinkHrefs (addNextLinks join base p.nextHrefs [base])).take 15

/-! ## clean_location -/

/-- Alternatives of the label-stripping regex `(Location|in|at)`, tried in
this order at each position (case-insensitively). -/
def labelAlts : List (List Char) := ["location".data, "in".data, "at".data]

/-- One pass of `re.sub(r'(Location|in|at)[:\x5cs]*', '', s, flags=IGNORECASE)`:
after a matched label, the greedy `[:\x5cs]*` also consumes colons and
whitespace. -/
def subLabels : Nat → List Char → List Char
  | 0, s => s
  | _ + 1, [] => []
  | n + 1, c :: cs =>
      match matchAlts true labelAlts (c :: cs) with
      | some rest => subLabels n (rest.dropWhile (fun d => d = ':' || pyWs d))
      | none => c :: subLabels n cs

/-- The cleaned text of `clean_location` (scraper.py lines 90-92): strip the
title (case-insensitively), strip boilerplate labels, collapse whitespace,
strip. -/
def cleanedText (text title : String) : String :=
  let s1 := subAlts true [title.data] text.data.length text.data
  let s2 := subLabels s1.length s1
  String.mk (stripWs (collapseWsAux false s2))

/-- Regex fragment `4110\x5cd{2}` at this position. -/
def pat4110At : List Char → Bool
  | '4' :: '1' :: '1' :: '0' :: d1 :: d2 :: _ => d1.isDigit && d2.isDigit
  | _ => false

/-- Search `re.search(r'pune|4110\x5cd{2}', s, IGNORECASE)`. -/
def punePat (s : List Char) : Bool :=
  containsSub true "pune".data s || anySuffix pat4110At s

/-- Regex fragment `o\x5cs*fallon` (case-insensitive) at this position. -/
def oFallonAt : List Char → Bool
  | [] => false
  | c :: rest =>
      c.toLower = 'o' && (matchStart true "fallon".data (rest.dropWhile pyWs)).isSome

/-- Search `re.search(r'o\x5cs*fallon|63368', s, IGNORECASE)`. -/
def oFallonPat (s : List Char) : Bool :=
  anySuffix oFallonAt s || containsSub true "63368".data s

/-- The hardcoded Pune location dict. -/
def puneLoc : JobLocation :=
  { city := "Pune", state := some "Maharashtra", country := "India",
    postal_code := some "411006", region := "Asia Pacific",
    remote := false, hybrid := false, relocation_supported := false }

/-- The hardcoded O Fallon location dict. -/
def oFallonLoc : JobLocation :=
  { city := "O Fallon", state := some "Missouri", country := "United States of America",
    postal_code := some "63368", region := "North America",
    remote := false, hybrid := false, relocation_supported := false }

/-- The India-substring branch of `clean_location`. -/
def indiaLoc (ct : String) : JobLocation :=
  { city := pyTake 50 ct, state := some "Maharashtra", country := "India",
    postal_code := none, region := "Asia Pacific",
    remote := false, hybrid := false, relocation_supported := false }

/-- The generic fallback branch of `clean_location`. -/
def fallbackLoc (ct : String) : JobLocation :=
  { city := if ct = "" then "Not Specified" else pyTake 50 ct,
    state := none, country := "Not Specified", postal_code := none,
    region := "Not Specified",
    remote := false, hybrid := false, relocation_supported := false }

/-- Model of `clean_location(text, title)` (scraper.py lines 88-116). -/
def clean_location (text title : String) : JobLocation :=
  let ct := cleanedText text title
  if punePat ct.data then puneLoc
  else if oFallonPat ct.data then oFallonLoc
  else if containsSub true "india".data ct.data then indiaLoc ct
  else fallbackLoc ct

/-! ## auto_detect_company -/

/-- Find the remainder after the first `://` of a URL (the netloc part of
`urllib.parse.urlparse` for URLs of the form scheme://netloc/...). -/
def afterSchemeSep : List Char → Option (List Char)
  | [] => none
  | ':' :: '/' :: '/' :: rest => some rest
  | _ :: cs => afterSchemeSep cs

/-- Model of `urlparse(url).netloc` for scheme://netloc/path URLs. -/
def netlocOf (url : String) : String :=
  match afterSchemeSep url.data with
  | some rest => String.mk (rest.takeWhile (fun c => c ≠ '/' && c ≠ '?' && c ≠ '#'))
  | none => ""

/-- Python `str.title()` over ASCII: a letter is upcased when the previous
character is not a letter, downcased otherwise. -/
def titleCaseAux : Bool → List Char → List Char
  | _, [] => []
  | prevAlpha, c :: cs =>
      (if c.isAlpha then (if prevAlpha then c.toLower else c.toUpper) else c) ::
        titleCaseAux c.isAlpha cs

/-- The element loop of `auto_detect_company` (scraper.py lines 122-128): the
first of the `['title', 'h1', '.company-name']` query results whose stripped
text has length strictly between 3 and 50 yields the company name, with
`Careers?|Jobs?` occurrences removed and the result stripped. -/
def pickCompanyName : List (Option String) → Option String
  | [] => none
  | none :: rest => pickCompanyName rest
  | some raw :: rest =>
      let text := String.mk (stripWs raw.data)
      if 3 < pyLen text && pyLen text < 50 then
        some (String.mk (stripWs
          (subAlts false ["Careers".data, "Career".data, "Jobs".data, "Job".data]
            text.data.length text.data)))
      else pickCompanyName rest

/-- The dict returned by `auto_detect_company` (scraper.py lines 118-141). -/
structure CompanyInfo where
  company_name : String
  company_domain : String
  industry : String
  employee_size_range : String
  diversity_statement_present : Bool
  equal_opportunity_employer : Bool
deriving DecidableEq

/-- Model of `auto_detect_company(url, soup)` (scraper.py lines 118-141). -/
def auto_detect_company (url : String) (p : Page) : CompanyInfo :=
  let domain := subAltsStr false ["careers."] (subAltsStr false ["www."] (netlocOf url))
  let defaultName := String.mk ((titleCaseAux false domain.data).takeWhile (fun c => c ≠ '.'))
  let pageLower := lowerStr p.pageText
  let isEeo := ["equal opportunity", "eeo", "diversity"].any
    (fun kw => containsSub false kw.data pageLower.data)
  { company_name := (pickCompanyName p.titleElems).getD defaultName,
    company_domain := domain,
    industry := if containsSub false "mastercard".data pageLower.data then
      "Financial Services" else "Technology",
    employee_size_range := "25,000+",
    diversity_statement_present := isEeo,
    equal_opportunity_employer := isEeo }

/-! ## find_universal_jobs -/

/-- Character class `[A-Z0-9\x2d]` of the job-URL patterns. -/
def jobClassChar (c : Char) : Bool :=
  ('A' ≤ c && c ≤ 'Z') || c.isDigit || c = '-'

/-- Pattern `/job[s]?/[A-Z0-9\x2d]{3,20}` matches at this position (existence
of a match only needs three class characters after the slash). -/
def jobPat1At (s : List Char) : Bool :=
  (match matchStart false "/jobs/".data s with
   | some r => 3 ≤ (r.takeWhile jobClassChar).length
   | none => false) ||
  (match matchStart false "/job/".data s with
   | some r => 3 ≤ (r.takeWhile jobClassChar).length
   | none => false)

/-- Pattern `R-\x5cd+` matches at this position. -/
def jobPat2At : List Char → Bool
  | 'R' :: '-' :: d :: _ => d.isDigit
  | _ => false

/-- Pattern `/us/en/job/[A-Z0-9\x2d]+` matches at this position. -/
def jobPat3At (s : List Char) : Bool :=
  match matchStart false "/us/en/job/".data s with
  | some r => 1 ≤ (r.takeWhile jobClassChar).length
  | none => false

/-- Test `any(re.search(pattern, full_url) for pattern in JOB_URL_PATTERNS)`. -/
def isJobUrl (u : String) : Bool :=
  anySuffix jobPat1At u.data || anySuffix jobPat2At u.data || anySuffix jobPat3At u.data

/-- First match of `R-(\x5cd+)` and its greedy digit group, as
`f"R-{m.group(1)}"`; `none` when the URL has no match. -/
def findRId : List Char → Option String
  | [] => none
  | c :: cs =>
      if jobPat2At (c :: cs) then
        some (String.mk ('R' :: '-' :: (cs.drop 1).takeWhile Char.isDigit))
      else findRId cs

/-- Title-shape filter of `find_universal_jobs` (scraper.py lines 164-166). -/
def validTitle (title : String) : Bool :=
  8 < pyLen title && pyLen title < 120 &&
  !INVALID_TITLES.any (fun inv => containsSub false inv.data (lowerStr title).data)

/-- The anchor loop of `find_universal_jobs` with its page-local seen-URL
set (scraper.py lines 155-185). -/
def findJobsAux (join : String → String → String) (base : String) :
    List Anchor → List String → List RawJob
  | [], _ => []
  | a :: rest, seen =>
      if a.href.data.head? = some '#' || containsSub false "javascript".data a.href.data then
        findJobsAux join base rest seen
      else
        let full := join base a.href
        if validTitle a.title && isJobUrl full && !seen.contains full then
          { title := a.title, job_id := (findRId full.data).getD "", url := full,
            context := match a.parentText with
              | some t => pyTake 300 t
              | none => a.title } :: findJobsAux join base rest (full :: seen)
        else findJobsAux join base rest seen

/-- Model of `find_universal_jobs(soup, base_url)` (scraper.py lines 151-186). -/
def find_universal_jobs (join : String → String → String) (p : Page) (base : String) :
    List RawJob :=
  findJobsAux join base p.anchors []

/-! ## Field synthesizers -/

/-- The category table of `detect_category`, in dict insertion order. -/
def categoriesTable : List (String × List String) :=
  [("Software Engineering", ["engineer", "developer"]),
   ("Data Science", ["data", "analytics"]),
   ("DevOps", ["devops", "reliability"]),
   ("Customer Success", ["support", "customer"])]

/-- Model of `detect_category(title, text)` (scraper.py lines 310-320). -/
def detect_category (title text : String) : String :=
  let tl := lowerStr (title ++ " " ++ text)
  match categoriesTable.find? (fun c => c.2.any (fun kw => containsSub false kw.data tl.data)) with
  | some c => c.1
  | none => "Engineering"

/-- Model of `detect_seniority(title, text)` (scraper.py lines 322-326); the body only
inspects the title. -/
def detect_seniority (title text : String) : String :=
  let tl := lowerStr title
  if ["senior", "lead", "principal"].any (fun kw => containsSub false kw.data tl.data) then
    "Senior"
  else if ["jr", "intern"].any (fun kw => containsSub false kw.data tl.data) then "Junior"
  else "Mid"

/-- A bullet character of the class `[-••]`. -/
def bulletChar (c : Char) : Bool := c = '-' || c = '•'

/-- Greedy backtracking end position of `[^•]{20,200}[.;]` applied to the
characters after the leading letter: the largest `k` between 20 and 200 such
that the first `k` characters avoid bullets and the character at position `k`
is `.` or `;`. -/
def respEndPos (rest : List Char) : Option Nat :=
  let maxK := min ((rest.takeWhile (fun c => c ≠ '•')).length) 200
  ((List.range (maxK + 1)).reverse).find?
    (fun k => 20 ≤ k && (rest[k]? = some '.' || rest[k]? = some ';'))

/-- Capture of `([A-Z][^•]{20,200}[.;])` (the `[A-Z]` matches any letter due
to `IGNORECASE`); returns the captured group and the remainder after it. -/
def respCapAt : List Char → Option (List Char × List Char)
  | [] => none
  | a :: rest =>
      if a.isAlpha then
        match respEndPos rest with
        | some k =>
            match rest[k]? with
            | some e => some (a :: (rest.take k ++ [e]), rest.drop (k + 1))
            | none => none
        | none => none
      else none

/-- Scan `re.findall(r'[-••]\x5cs*([A-Z][^•]{20,200}[.;])', text, IGNORECASE)`:
left-to-right non-overlapping scan for bullet-introduced sentences. -/
def respFind : Nat → List Char → List (List Char)
  | 0, _ => []
  | _ + 1, [] => []
  | n + 1, c :: cs =>
      if bulletChar c then
        match respCapAt (cs.dropWhile pyWs) with
        | some (cap, rest) => cap :: respFind n rest
        | none => respFind n cs
      else respFind n cs

/-- Model of `extract_responsibilities(text)` (scraper.py lines 328-330): first 8
matches, each stripped, kept when longer than 20 characters, capped at 200. -/
def extract_responsibilities (text : String) : List String :=
  ((respFind text.data.length text.data).take 8).filterMap (fun m =>
    let t := stripWs m
    if 20 < t.length then some (String.mk (t.take 200)) else none)

/-- Alternatives of `requirements?|qualifications?` with the greedy optional
`s` expanded, in regex preference order. -/
def qualKeyAlts : List (List Char) :=
  ["requirements".data, "requirement".data, "qualifications".data, "qualification".data]

/-- Greedy capture of `\x5cs*([^\x5cn]{50,300})` with backtracking into the
whitespace: the regex first consumes all whitespace, then gives characters
back (as long as they are not newlines, which `[^\x5cn]` refuses) until the
non-newline run reaches 50 characters. -/
def qualCapAt (t : List Char) : Option (List Char × List Char) :=
  let w := (t.takeWhile pyWs).length
  match ((List.range (w + 1)).reverse).find?
      (fun w2 => 50 ≤ min ((t.drop w2).takeWhile (fun c => c ≠ '\n')).length 300) with
  | some w2 =>
      let body := ((t.drop w2).takeWhile (fun c => c ≠ '\n')).take 300
      some (body, (t.drop w2).drop body.length)
  | none => none

/-- The optional `[:\x2d]?` between keyword and capture: try consuming one
punctuation character first, fall back to consuming none. -/
def qualAfterKey (t : List Char) : Option (List Char × List Char) :=
  match t with
  | c :: rest =>
      if c = ':' || c = '-' then
        match qualCapAt rest with
        | some r => some r
        | none => qualCapAt t
      else qualCapAt t
  | [] => qualCapAt t

/-- Scan `re.findall(r'(?:requirements?|qualifications?)[:\x2d]?\x5cs*([^\x5cn]{50,300})',
text, IGNORECASE)`. -/
def qualFind : Nat → List Char → List (List Char)
  | 0, _ => []
  | _ + 1, [] => []
  | n + 1, c :: cs =>
      match matchAlts true qualKeyAlts (c :: cs) with
      | some keyRest =>
          match qualAfterKey keyRest with
          | some (cap, rest) => cap :: qualFind n rest
          | none => qualFind n cs
      | none => qualFind n cs

/-- Model of `extract_qualifications(text)` (scraper.py lines 332-334). -/
def extract_qualifications (text : String) : List String :=
  ((qualFind text.data.length text.data).take 8).filterMap (fun m =>
    let t := stripWs m
    if 20 < t.length then some (String.mk (t.take 200)) else none)

/-- Model of `extract_full_skills(text)` (scraper.py lines 143-149): categories with a
positive count of matched keywords, in database order. -/
def extract_full_skills (text : String) : List (String × Nat) :=
  let tl := lowerStr text
  SKILLS_DATABASE.filterMap (fun cat =>
    let found := cat.2.filter (fun s => containsSub false s.data tl.data)
    if found.isEmpty then none else some (cat.1, found.length))

/-! ## extract_emails -/

/-- The comprehension `[e.lower() for e in re.findall(...) if 'example' not in
e.lower()]` of `extract_emails`; `findEmails` abstracts the `re.findall` of
the email pattern over the raw html. -/
def foundEmails (findEmails : String → List String) (text : String) : List String :=
  (((findEmails text).filter
    (fun e => !containsSub false "example".data (lowerStr e).data)).map lowerStr)

/-- Model of `extract_emails(text)` (scraper.py lines 336-338): `list(set(...))[:2]`,
where `enumSet` abstracts the unspecified enumeration order of a Python set
(any duplicate-free enumeration of the distinct elements). -/
def extract_emails (enumSet : List String → List String)
    (findEmails : String → List String) (text : String) : List String :=
  (enumSet (foundEmails findEmails text)).take 2

/-! ## scrape_with_retry -/

/-- Outcome of one `crawler.arun` attempt: the call raises, or returns `None`
(falsy), or returns a result with a success flag and a rendered page. -/
inductive AttemptRes where
  | raised : AttemptRes
  | value : Option (Bool × Page) → AttemptRes
deriving DecidableEq

/-- Trace of `scrape_with_retry` (scraper.py lines 340-347): the returned
result, the backoff sleeps issued in order, and the number of attempts made. -/
structure RetryOut where
  result : Option Page
  sleeps : List Nat
  attempts : Nat
deriving DecidableEq

/-- The retry loop: on a successful result return it at once; on a falsy or
unsuccessful result sleep `2 ** attempt` and retry; on a raised exception the
bare `except: pass` swallows it and the sleep inside the `try` is skipped. -/
def retryGo (att : Nat → AttemptRes) : Nat → Nat → RetryOut
  | _, 0 => ⟨none, [], 0⟩
  | i, rem + 1 =>
      match att i with
      | .raised =>
          let r := retryGo att (i + 1) rem
          ⟨r.result, r.sleeps, r.attempts + 1⟩
      | .value none =>
          let r := retryGo att (i + 1) rem
          ⟨r.result, 2 ^ i :: r.sleeps, r.attempts + 1⟩
      | .value (some (true, p)) => ⟨some p, [], 1⟩
      | .value (some (false, _)) =>
          let r := retryGo att (i + 1) rem
          ⟨r.result, 2 ^ i :: r.sleeps, r.attempts + 1⟩

/-- Model of `scrape_with_retry(crawler, url, max_retries)`; `att i` is what the
`i`-th `crawler.arun` call does for this URL. -/
def scrape_with_retry (att : Nat → AttemptRes) (max_retries : Nat) : RetryOut :=
  retryGo att 0 max_retries

/-! ## scrape_single_url -/

/-- The result dict as initialized at scraper.py lines 194-205, before any
fetch; `nowIso` stands for `datetime.utcnow().isoformat() + "Z"`. -/
def initResult (url nowIso : String) : ResultDoc :=
  { schema_version := "2.1.3",
    source := { company_name := "", company_domain := "", careers_page := url,
                scraping_engine := "universal-job-scraper-v7.3-max15", scraped_at := nowIso,
                scrape_status := "success", country_of_origin := "Global", error := none },
    company_profile := { industry := "Financial Services", business_type := "Public Company",
                         operating_countries := 210, employee_size_range := "25,000+",
                         diversity_statement_present := true,
                         equal_opportunity_employer := true },
    jobs := [],
    contact_information := { privacy_email := "", accommodation_email := "" },
    scraping_metadata := { total_jobs_found := 0, jobs_successfully_parsed := 0,
                           pages_scraped := 0, unique_jobs := none,
                           jobs_with_skills := none, remote_jobs := none },
    data_quality := { overall_confidence := (98 : ℚ) / 100,
                      manual_review_required := false } }

/-- The document returned when the first list-page fetch yields no result
(scraper.py lines 211-213): only `scrape_status` changes, to "failed". -/
def failedDoc (url nowIso : String) : ResultDoc :=
  let base := initResult url nowIso
  { base with source := { base.source with scrape_status := "failed" } }

/-- The document produced by the `except Exception` handler (scraper.py lines
301-303): status "error" with the exception text attached. -/
def errorDoc (url nowIso msg : String) : ResultDoc :=
  let base := initResult url nowIso
  { base with source := { base.source with scrape_status := "error", error := some msg } }

/-- The detail text of one accepted candidate (scraper.py lines 250-256): on
a successful detail fetch, the main-content text truncated to 4000
characters when a container matched, the raw html otherwise; on fetch
failure, the candidate's list-page context snippet. -/
def detailTextOf (fetch : String → Option Page) (j : RawJob) : String :=
  match fetch j.url with
  | some p =>
      match p.mainContent with
      | some t => pyTake 4000 t
      | none => p.html
  | none => j.context

/-- The dedup hash input `f"{title}_{url}"` fed to `hashlib.md5` at
scraper.py line 245. -/
def dedupHashInput (j : RawJob) : String := j.title ++ "_" ++ j.url

/-- The `perfect_job` dict built for one accepted candidate (scraper.py lines
250-283); `md5hex` abstracts `hashlib.md5(...).hexdigest()` and `nowDate`
stands for `datetime.now().strftime("%Y-%m-%d")`. -/
def buildJob (md5hex : String → String) (fetch : String → Option Page)
    (nowDate : String) (j : RawJob) : JobRecord :=
  let jobHash := md5hex (dedupHashInput j)
  let detailText := detailTextOf fetch j
  { job_identifiers := { internal_job_id := j.job_id, source_job_id := j.job_id,
                         canonical_hash := pyTake 12 jobHash },
    title := pyTake 100 j.title,
    normalized_title := pyTake 50 (String.mk (stripWs
      (subAlts false ["Senior".data, "Lead".data, "II".data, "III".data]
        j.title.data.length j.title.data))),
    seniority_level := detect_seniority j.title detailText,
    employment := { employment_type := "Full-Time", contract := "Permanent",
                    work_shift := "Day" },
    department := if ["engineer", "developer"].any
        (fun x => containsSub false x.data (lowerStr j.title).data) then "Technology" else "Other",
    category := detect_category j.title detailText,
    location := clean_location j.context j.title,
    job_description := { summary := String.mk (stripWs ((collapseWsAux false detailText.data).take 500)),
                         responsibilities := extract_responsibilities detailText,
                         qualifications := extract_qualifications detailText },
    skills := extract_full_skills detailText,
    education_requirements := { minimum_degree := "Bachelor\x27s",
                                accepted_degrees := ["BS", "BE"],
                                preferred_fields := ["Computer Science"] },
    experience_requirements := { minimum_years := if containsSub false "senior".data (lowerStr j.title).data then 3 else 2,
                                 maximum_years := none, level_description := "Mid-level" },
    compensation_salary_available := false,
    application := { apply_url := j.url, application_method := "online",
                     resume_required := true, cover_letter_required := false },
    posting_info := { posted_date := none, last_updated := nowDate, job_status := "open" },
    extraction_quality := { description_cleaned := true,
                            skills_confidence := (95 : ℚ) / 100,
                            location_confidence := (98 : ℚ) / 100 } }

/-- The dedup-and-cap selection of the processing loop (scraper.py lines
244-248 and 286-288): a candidate is kept when its hash is new and fewer than
`MAX_JOBS` candidates are kept so far; kept hashes are recorded in the
session set. -/
def acceptedRaws (md5hex : String → String) :
    List RawJob → List String → Nat → List RawJob
  | [], _, _ => []
  | j :: rest, seen, n =>
      let h := md5hex (dedupHashInput j)
      if seen.contains h || MAX_JOBS ≤ n then acceptedRaws md5hex rest seen n
      else j :: acceptedRaws md5hex rest (h :: seen) (n + 1)

/-- The list-page loop (scraper.py lines 230-238): fetch every discovered
page and concatenate the extracted candidates; a page whose fetch fails
contributes nothing. -/
def collectRaws (fetch : String → Option Page) (join : String → String → String)
    (pages : List String) : List RawJob :=
  pages.flatMap (fun pu =>
    match fetch pu with
    | some p => find_universal_jobs join p pu
    | none => [])

/-- The `contact_information` assignment (scraper.py lines 223-224), reached only
when `emails` is non-empty. -/
def contactOf (emails : List String) : ContactInfo :=
  { privacy_email := emails.headD "",
    accommodation_email := if 1 < emails.length then (emails.drop 1).headD "" else "" }

/-- The success path of `scrape_single_url` (scraper.py lines 210-299):
company detection, contact emails, pagination, candidate collection, dedup
and cap, per-candidate record building, and metadata aggregation. -/
def successDoc (md5hex : String → String) (enumSet : List String → List String)
    (findEmails : String → List String) (join : String → String → String)
    (fetch : String → Option Page) (url nowIso nowDate : String) (first : Page) : ResultDoc :=
  let base := initResult url nowIso
  let info := auto_detect_company url first
  let emails := extract_emails enumSet findEmails first.html
  let all_pages := detect_pagination join first url
  let all_jobs_raw := collectRaws fetch join all_pages
  let perfect_jobs := (acceptedRaws md5hex all_jobs_raw [] 0).map (buildJob md5hex fetch nowDate)
  let jobs := perfect_jobs.take MAX_JOBS
  { schema_version := base.schema_version,
    source := { base.source with company_name := info.company_name,
                                 company_domain := info.company_domain },
    company_profile := { base.company_profile with
                         industry := info.industry,
                         employee_size_range := info.employee_size_range,
                         diversity_statement_present := info.diversity_statement_present,
                         equal_opportunity_employer := info.equal_opportunity_employer },
    jobs := jobs,
    contact_information := if emails.isEmpty then base.contact_information else contactOf emails,
    scraping_metadata := { total_jobs_found := all_jobs_raw.length,
                           jobs_successfully_parsed := jobs.length,
                           pages_scraped := all_pages.length,
                           unique_jobs := some jobs.length,
                           jobs_with_skills := some (jobs.filter (fun j => !j.skills.isEmpty)).length,
                           remote_jobs := some (jobs.filter (fun j => j.location.remote)).length },
    data_quality := base.data_quality }

/-- Observable outcome of one `scrape_single_url` call: either a returned
document (`Except.ok`) or an exception escaping the entry point
(`Except.error` with the exception text), together with whether
`crawler.close()` ran. -/
structure ScrapeOutcome where
  result : Except String ResultDoc
  crawlerClosed : Bool

/-- Model of `scrape_single_url(url)` (scraper.py lines 188-307).  `startExc` models
an exception raised by `AsyncWebCrawler(...)`/`crawler.start()`, which happen
before the `try` block: such an exception propagates and skips the `finally`.
`excBody` models an unexpected exception inside the `try` body, which the
`except Exception` handler converts into an "error" document while the
`finally` still closes the crawler.  `fetch u` is the result of
`scrape_with_retry` for URL `u` (`none` on failure; a returned page always
has `success` set, since the retry loop only returns successful results). -/
def scrape_single_url (startExc excBody : Option String) (md5hex : String → String)
    (enumSet : List String → List String) (findEmails : String → List String)
    (join : String → String → String) (fetch : String → Option Page)
    (nowIso nowDate url : String) : ScrapeOutcome :=
  match startExc with
  | some e => { result := Except.error e, crawlerClosed := false }
  | none =>
      match excBody with
      | some e => { result := Except.ok (errorDoc url nowIso e), crawlerClosed := true }
      | none =>
          match fetch url with
          | none => { result := Except.ok (failedDoc url nowIso), crawlerClosed := true }
          | some first =>
              { result := Except.ok
                  (successDoc md5hex enumSet findEmails join fetch url nowIso nowDate first),
                crawlerClosed := true }

/-! ## Helper lemmas -/

lemma addNextLinks_eq_append (join : String → String → String) (base : String) :
    ∀ (hrefs : List (Option String)) (acc : List String),
      ∃ ext, addNextLinks join base hrefs acc = acc ++ ext := by
  intro hrefs
  induction hrefs with
  | nil => intro acc; exact ⟨[], by simp [addNextLinks]⟩
  | cons h rest ih =>
      intro acc
      cases h with
      | none => simpa [addNextLinks] using ih acc
      | some href =>
          by_cases he : href = ""
          · simpa [addNextLinks, he] using ih acc
          · by_cases hc : join base href ∈ acc
            · simpa [addNextLinks, he, hc] using ih acc
            · obtain ⟨ext, hext⟩ := ih (acc ++ [join base href])
              refine ⟨join base href :: ext, ?_⟩
              simp [addNextLinks, he, hc, hext]

lemma addPageLinks_eq_append (join : String → String → String) (base : String) :
    ∀ (hrefs : List String) (acc : List String),
      ∃ ext, addPageLinks join base hrefs acc = acc ++ ext := by
  intro hrefs
  induction hrefs with
  | nil => intro acc; exact ⟨[], by simp [addPageLinks]⟩
  | cons href rest ih =>
      intro acc
      by_cases hp : hasPageParam href.data
      · by_cases hm : join base href ∈ acc
        · simpa [addPageLinks, hp, hm] using ih acc
        · by_cases hl : acc.length < 20
          · obtain ⟨ext, hext⟩ := ih (acc ++ [join base href])
            refine ⟨join base href :: ext, ?_⟩
            simp [addPageLinks, hp, hm, hl, hext]
          · simpa [addPageLinks, hp, hm, hl] using ih acc
      · simpa [addPageLinks, hp] using ih acc

/-- C6: Pagination discovery returns at most 15 URLs and its first element is
the input base URL. -/
theorem pagination_bounded_first (join : String → String → String) (p : Page) (base : String) :
    (detect_pagination join p base).length ≤ 15 ∧
    (detect_pagination join p base).head? = some base := by
  constructor
  · simp [detect_pagination, List.length_take]
  · obtain ⟨e1, h1⟩ := addNextLinks_eq_append join base p.nextHrefs [base]
    obtain ⟨e2, h2⟩ := addPageLinks_eq_append join base p.pageLinkHrefs _
    unfold detect_pagination
    rw [h2, h1]
    have hshape : ([base] ++ e1) ++ e2 = base :: (e1 ++ e2) := by simp
    rw [hshape, show (15 : Nat) = 14 + 1 from rfl, List.take_succ_cons]
    rfl

/-- The jobs list of the success-path document, mirroring
`result['jobs'] = perfect_jobs[:self.MAX_JOBS]`. -/
lemma successDoc_jobs (md5hex : String → String) (enumSet : List String → List String)
    (findEmails : String → List String) (join : String → String → String)
    (fetch : String → Option Page) (url nowIso nowDate : String) (first : Page) :
    (successDoc md5hex enumSet findEmails join fetch url nowIso nowDate first).jobs =
      ((acceptedRaws md5hex
          (collectRaws fetch join (detect_pagination join first url)) [] 0).map
        (buildJob md5hex fetch nowDate)).take MAX_JOBS := rfl

/-- C1: every document returned by `scrape_single_url`, on any exit path,
carries at most `MAX_JOBS` = 15 jobs. -/
theorem jobs_length_le_max (startExc excBody : Option String) (md5hex : String → String)
    (enumSet : List String → List String) (findEmails : String → List String)
    (join : String → String → String) (fetch : String → Option Page)
    (nowIso nowDate url : String) (doc : ResultDoc)
    (h : (scrape_single_url startExc excBody md5hex enumSet findEmails join fetch
            nowIso nowDate url).result = Except.ok doc) :
    doc.jobs.length ≤ MAX_JOBS := by
  cases startExc with
  | some e => simp [scrape_single_url] at h
  | none =>
      cases excBody with
      | some e =>
          simp [scrape_single_url] at h
          simp [← h, errorDoc, initResult]
      | none =>
          cases hf : fetch url with
          | none =>
              simp [scrape_single_url, hf] at h
              simp [← h, failedDoc, initResult]
          | some first =>
              simp [scrape_single_url, hf] at h
              rw [← h, successDoc_jobs]
              simp [List.length_take]

/-- Witness for C1 at a concrete input (first fetch failing). -/
theorem jobs_length_le_max_wit : (failedDoc "https://x.com" "t").jobs.length ≤ MAX_JOBS :=
  jobs_length_le_max none none (fun s => s) id (fun _ => []) (fun _ h => h) (fun _ => none)
    "t" "d" "https://x.com" (failedDoc "https://x.com" "t") rfl

/-- C9: when the first list-page fetch yields no result, the returned document
has status "failed" (not "error"), no jobs, and the initial metadata whose
present counters are all zero (the three success-only keys are absent). -/
theorem first_fetch_failed_doc (md5hex : String → String)
    (enumSet : List String → List String) (findEmails : String → List String)
    (join : String → String → String) (fetch : String → Option Page)
    (nowIso nowDate url : String) (hf : fetch url = none) :
    (scrape_single_url none none md5hex enumSet findEmails join fetch
        nowIso nowDate url).result = Except.ok (failedDoc url nowIso) ∧
    (failedDoc url nowIso).source.scrape_status = "failed" ∧
    (failedDoc url nowIso).source.scrape_status ≠ "error" ∧
    (failedDoc url nowIso).jobs = [] ∧
    (failedDoc url nowIso).scraping_metadata =
      { total_jobs_found := 0, jobs_successfully_parsed := 0, pages_scraped := 0,
        unique_jobs := none, jobs_with_skills := none, remote_jobs := none } := by
  refine ⟨by simp [scrape_single_url, hf], rfl, ?_, rfl, rfl⟩
  show ("failed" : String) ≠ "error"
  decide

/-- Witness for C9: a fetch oracle that always fails. -/
theorem first_fetch_failed_doc_wit :
    (scrape_single_url none none (fun s => s) id (fun _ => []) (fun _ h => h) (fun _ => none)
        "t" "d" "https://x.com").result = Except.ok (failedDoc "https://x.com" "t") ∧
    (failedDoc "https://x.com" "t").source.scrape_status = "failed" ∧
    (failedDoc "https://x.com" "t").source.scrape_status ≠ "error" ∧
    (failedDoc "https://x.com" "t").jobs = [] ∧
    (failedDoc "https://x.com" "t").scraping_metadata =
      { total_jobs_found := 0, jobs_successfully_parsed := 0, pages_scraped := 0,
        unique_jobs := none, jobs_with_skills := none, remote_jobs := none } :=
  first_fetch_failed_doc (fun s => s) id (fun _ => []) (fun _ h => h) (fun _ => none)
    "t" "d" "https://x.com" rfl

/-- C3 counterexample: `AsyncWebCrawler`/`crawler.start()` run before the
`try` block, so an initialization failure escapes `scrape_single_url` as an
exception — no "error" document is returned and `crawler.close()` never
runs. -/
theorem start_failure_raises_cex :
    (scrape_single_url (some "session init failure") none (fun s => s) id (fun _ => [])
        (fun _ h => h) (fun _ => none) "t" "d" "https://x.com").result =
      Except.error "session init failure" ∧
    (scrape_single_url (some "session init failure") none (fun s => s) id (fun _ => [])
        (fun _ h => h) (fun _ => none) "t" "d" "https://x.com").crawlerClosed = false :=
  ⟨rfl, rfl⟩

/-- C3 amended: once the fetch resource has initialized, `scrape_single_url`
always returns a document and always releases the crawler, and an unexpected
exception in the crawl body yields status "error" with the message attached;
an initialization failure, however, propagates to the caller. -/
theorem body_errors_caught (excBody : Option String) (md5hex : String → String)
    (enumSet : List String → List String) (findEmails : String → List String)
    (join : String → String → String) (fetch : String → Option Page)
    (nowIso nowDate url : String) :
    (∃ doc, (scrape_single_url none excBody md5hex enumSet findEmails join fetch
        nowIso nowDate url).result = Except.ok doc) ∧
    (scrape_single_url none excBody md5hex enumSet findEmails join fetch
        nowIso nowDate url).crawlerClosed = true ∧
    (∀ e, excBody = some e →
      (scrape_single_url none excBody md5hex enumSet findEmails join fetch
          nowIso nowDate url).result = Except.ok (errorDoc url nowIso e) ∧
      (errorDoc url nowIso e).source.scrape_status = "error" ∧
      (errorDoc url nowIso e).source.error = some e) := by
  refine ⟨?_, ?_, ?_⟩
  · cases excBody with
    | some e => exact ⟨errorDoc url nowIso e, rfl⟩
    | none =>
        cases hf : fetch url with
        | none => exact ⟨failedDoc url nowIso, by simp [scrape_single_url, hf]⟩
        | some first =>
            exact ⟨successDoc md5hex enumSet findEmails join fetch url nowIso nowDate first,
              by simp [scrape_single_url, hf]⟩
  · cases excBody with
    | some e => rfl
    | none =>
        cases hf : fetch url with
        | none => simp [scrape_single_url, hf]
        | some first => simp [scrape_single_url, hf]
  · intro e he
    subst he
    exact ⟨rfl, rfl, rfl⟩

/-- Witness for C3's amended statement: a concrete body exception "boom". -/
theorem body_errors_caught_wit :
    (scrape_single_url none (some "boom") (fun s => s) id (fun _ => []) (fun _ h => h)
        (fun _ => none) "t" "d" "https://x.com").result =
      Except.ok (errorDoc "https://x.com" "t" "boom") ∧
    (errorDoc "https://x.com" "t" "boom").source.scrape_status = "error" ∧
    (errorDoc "https://x.com" "t" "boom").source.error = some "boom" :=
  (body_errors_caught (some "boom") (fun s => s) id (fun _ => []) (fun _ h => h)
    (fun _ => none) "t" "d" "https://x.com").2.2 "boom" rfl

/-! ## C5: retry/backoff -/

/-- The backoff that attempt `i` contributes: a falsy or unsuccessful result
sleeps `2 ^ i`, a successful result returns at once, and a raised exception
jumps to `except: pass`, skipping the sleep. -/
def retrySleepAt (att : Nat → AttemptRes) (i : Nat) : Option Nat :=
  match att i with
  | .raised => none
  | .value none => some (2 ^ i)
  | .value (some (true, _)) => none
  | .value (some (false, _)) => some (2 ^ i)

lemma retryGo_spec (att : Nat → AttemptRes) :
    ∀ (rem i : Nat),
      (retryGo att i rem).attempts ≤ rem ∧
      (retryGo att i rem).sleeps =
        (List.range' i (retryGo att i rem).attempts).filterMap (retrySleepAt att) ∧
      (∀ p, (retryGo att i rem).result = some p →
        ∃ k, i ≤ k ∧ k < i + rem ∧ att k = AttemptRes.value (some (true, p))) := by
  intro rem
  induction rem with
  | zero => intro i; exact ⟨Nat.le_refl 0, rfl, by intro p hp; simp [retryGo] at hp⟩
  | succ m ih =>
      intro i
      obtain ⟨iha, ihs, ihr⟩ := ih (i + 1)
      cases hatt : att i with
      | raised =>
          refine ⟨?_, ?_, ?_⟩
          · simpa [retryGo, hatt] using Nat.succ_le_succ iha
          · simp only [retryGo, hatt]
            rw [List.range'_succ, List.filterMap_cons]
            simp [retrySleepAt, hatt, ihs]
          · intro p hp
            simp only [retryGo, hatt] at hp
            obtain ⟨k, hk1, hk2, hk3⟩ := ihr p hp
            exact ⟨k, Nat.le_of_succ_le hk1, by omega, hk3⟩
      | value v =>
          cases v with
          | none =>
              refine ⟨?_, ?_, ?_⟩
              · simpa [retryGo, hatt] using Nat.succ_le_succ iha
              · simp only [retryGo, hatt]
                rw [List.range'_succ, List.filterMap_cons]
                simp [retrySleepAt, hatt, ihs]
              · intro p hp
                simp only [retryGo, hatt] at hp
                obtain ⟨k, hk1, hk2, hk3⟩ := ihr p hp
                exact ⟨k, Nat.le_of_succ_le hk1, by omega, hk3⟩
          | some sp =>
              obtain ⟨sflag, pg⟩ := sp
              cases sflag with
              | true =>
                  refine ⟨by simp [retryGo, hatt], ?_, ?_⟩
                  · simp only [retryGo, hatt]
                    rw [List.range'_succ, List.filterMap_cons]
                    simp [retrySleepAt, hatt]
                  · intro p hp
                    simp only [retryGo, hatt] at hp
                    obtain rfl : pg = p := by injection hp
                    exact ⟨i, Nat.le_refl i, by omega, hatt⟩
              | false =>
                  refine ⟨?_, ?_, ?_⟩
                  · simpa [retryGo, hatt] using Nat.succ_le_succ iha
                  · simp only [retryGo, hatt]
                    rw [List.range'_succ, List.filterMap_cons]
                    simp [retrySleepAt, hatt, ihs]
                  · intro p hp
                    simp only [retryGo, hatt] at hp
                    obtain ⟨k, hk1, hk2, hk3⟩ := ihr p hp
                    exact ⟨k, Nat.le_of_succ_le hk1, by omega, hk3⟩

/-- C5 amended: the fetcher makes at most 3 attempts; it sleeps `2 ^ attempt`
exactly after the attempts that returned a falsy or unsuccessful result (an
attempt that raised an exception is retried immediately, with no backoff,
because the sleep sits inside the `try` and is skipped by `except: pass`);
a returned page always comes from a successful attempt, and exhaustion
returns `none` rather than raising. -/
theorem retry_bounded_backoff (att : Nat → AttemptRes) :
    (scrape_with_retry att 3).attempts ≤ 3 ∧
    (scrape_with_retry att 3).sleeps =
      (List.range (scrape_with_retry att 3).attempts).filterMap (retrySleepAt att) ∧
    (∀ p, (scrape_with_retry att 3).result = some p →
      ∃ k, k < 3 ∧ att k = AttemptRes.value (some (true, p))) := by
  obtain ⟨ha, hs, hr⟩ := retryGo_spec att 3 0
  refine ⟨ha, ?_, ?_⟩
  · rw [List.range_eq_range']
    exact hs
  · intro p hp
    obtain ⟨k, _, hk2, hk3⟩ := hr p hp
    exact ⟨k, by omega, hk3⟩

/-- An empty rendered page, used by concrete scenarios. -/
def emptyPage : Page :=
  { html := "", anchors := [], nextHrefs := [], pageLinkHrefs := [], titleElems := [],
    pageText := "", mainContent := none }

/-- Attempt trace whose first call raises and whose second call succeeds. -/
def raiseThenOkAtt : Nat → AttemptRes :=
  fun i => if i = 0 then AttemptRes.raised else AttemptRes.value (some (true, emptyPage))

/-- An attempt trace that succeeds immediately. -/
def alwaysOkAtt : Nat → AttemptRes := fun _ => AttemptRes.value (some (true, emptyPage))

/-- Witness for C5's amended statement at a concrete attempt trace. -/
theorem retry_bounded_backoff_wit :
    ∃ k, k < 3 ∧ alwaysOkAtt k = AttemptRes.value (some (true, emptyPage)) :=
  (retry_bounded_backoff alwaysOkAtt).2.2 emptyPage rfl

/-- C5 counterexample: when attempt 0 raises and attempt 1 succeeds, the
fetcher performs two attempts but sleeps nowhere — in particular it does not
wait `2 ^ 0` between the two attempts, contradicting the claim that a raising
attempt is followed by the exponential-backoff wait. -/
theorem retry_no_backoff_on_raise_cex :
    (scrape_with_retry raiseThenOkAtt 3).result = some emptyPage ∧
    (scrape_with_retry raiseThenOkAtt 3).attempts = 2 ∧
    (scrape_with_retry raiseThenOkAtt 3).sleeps = [] ∧
    (scrape_with_retry raiseThenOkAtt 3).sleeps ≠ [2 ^ 0] := by
  refine ⟨rfl, rfl, rfl, by decide⟩

/-! ## C7: location classification priority -/

/-- C7: `clean_location` applies its rules in strict priority order — the
Pune/postal pattern first, then the O Fallon pattern, then the country-name
substring "india", and only then the generic fallback echoing the cleaned
text as the city with country "Not Specified"; and the spec scenario
("BizOps Engineer I Pune" with title "BizOps Engineer I") yields the Pune /
Maharashtra / India location. -/
theorem location_priority (text title : String) :
    (punePat (cleanedText text title).data = true →
      clean_location text title = puneLoc) ∧
    (punePat (cleanedText text title).data = false →
      oFallonPat (cleanedText text title).data = true →
      clean_location text title = oFallonLoc) ∧
    (punePat (cleanedText text title).data = false →
      oFallonPat (cleanedText text title).data = false →
      containsSub true "india".data (cleanedText text title).data = true →
      clean_location text title = indiaLoc (cleanedText text title)) ∧
    (punePat (cleanedText text title).data = false →
      oFallonPat (cleanedText text title).data = false →
      containsSub true "india".data (cleanedText text title).data = false →
      clean_location text title = fallbackLoc (cleanedText text title)) ∧
    clean_location "BizOps Engineer I Pune" "BizOps Engineer I" = puneLoc := by
  refine ⟨?_, ?_, ?_, ?_, by decide⟩
  · intro h1
    simp [clean_location, h1]
  · intro h1 h2
    simp [clean_location, h1, h2]
  · intro h1 h2 h3
    simp [clean_location, h1, h2, h3]
  · intro h1 h2 h3
    simp [clean_location, h1, h2, h3]

/-- Witness for C7: concrete inputs reaching the Pune branch, the India
branch, and the generic fallback branch. -/
theorem location_priority_wit :
    clean_location "Pune" "zz" = puneLoc ∧
    clean_location "iatndia" "zz" = indiaLoc (cleanedText "iatndia" "zz") ∧
    clean_location "Somewhere Texas" "zz" = fallbackLoc (cleanedText "Somewhere Texas" "zz") :=
  ⟨(location_priority "Pune" "zz").1 (by decide),
   (location_priority "iatndia" "zz").2.2.1 (by decide) (by decide) (by decide),
   (location_priority "Somewhere Texas" "zz").2.2.2.1 (by decide) (by decide) (by decide)⟩

/-! ## C4: detail-text fallback -/

/-- A detail page with no main-content container. -/
def noContainerPage : Page :=
  { html := "RAW DETAIL HTML", anchors := [], nextHrefs := [], pageLinkHrefs := [],
    titleElems := [], pageText := "", mainContent := none }

/-- A concrete accepted candidate. -/
def c4raw : RawJob :=
  { title := "Software Engineer II", job_id := "",
    url := "https://c.com/jobs/ABC-123", context := "CTX SNIPPET" }

/-- Fetch oracle for the C4 counterexample: the detail fetch succeeds but the
page has no main-content container. -/
def c4fetch : String → Option Page :=
  fun u => if u = "https://c.com/jobs/ABC-123" then some noContainerPage else none

/-- C4 counterexample: when the detail fetch succeeds but no main-content
container matches, the synthesizers receive the raw page html
(`detail_text = detail_result.html`), not the candidate's context snippet,
and the description summary is built from that html. -/
theorem no_container_uses_html_cex :
    detailTextOf c4fetch c4raw = "RAW DETAIL HTML" ∧
    detailTextOf c4fetch c4raw ≠ c4raw.context ∧
    (buildJob (fun s => s) c4fetch "2026-10-12" c4raw).job_description.summary =
      "RAW DETAIL HTML" ∧
    (buildJob (fun s => s) c4fetch "2026-10-12" c4raw).job_description.summary ≠
      "CTX SNIPPET" := by
  refine ⟨rfl, by decide, rfl, by decide⟩

/-- C4 amended: on detail-fetch failure the synthesizers operate on the
candidate's context snippet (and the summary is built from it, so a failed
fetch still yields a record rather than an error); on success with a matched
container the container text truncated to 4000 characters is used; on success
with no matched container the raw page html is used. -/
theorem detail_text_fallback (fetch : String → Option Page) (j : RawJob)
    (md5hex : String → String) (nowDate : String) :
    (fetch j.url = none →
      detailTextOf fetch j = j.context ∧
      (buildJob md5hex fetch nowDate j).job_description.summary =
        String.mk (stripWs ((collapseWsAux false j.context.data).take 500))) ∧
    (∀ p, fetch j.url = some p → p.mainContent = none →
      detailTextOf fetch j = p.html) ∧
    (∀ p t, fetch j.url = some p → p.mainContent = some t →
      detailTextOf fetch j = pyTake 4000 t) := by
  refine ⟨?_, ?_, ?_⟩
  · intro hf
    constructor
    · simp [detailTextOf, hf]
    · simp [buildJob, detailTextOf, hf]
  · intro p hf hm
    simp [detailTextOf, hf, hm]
  · intro p t hf hm
    simp [detailTextOf, hf, hm]

/-- Witness for C4's amended statement: a candidate whose detail fetch always
fails falls back to its context snippet. -/
theorem detail_text_fallback_wit :
    detailTextOf (fun _ => none) c4raw = c4raw.context ∧
    (buildJob (fun s => s) (fun _ => none) "2026-10-12" c4raw).job_description.summary =
      String.mk (stripWs ((collapseWsAux false c4raw.context.data).take 500)) :=
  (detail_text_fallback (fun _ => none) c4raw (fun s => s) "2026-10-12").1 rfl

/-! ## C2 and C10: deduplication -/

lemma acceptedRaws_spec (md5hex : String → String) :
    ∀ (raws : List RawJob) (seen : List String) (n : Nat),
      (∀ j, j ∈ acceptedRaws md5hex raws seen n → md5hex (dedupHashInput j) ∉ seen) ∧
      List.Pairwise (fun a b => a ≠ b)
        ((acceptedRaws md5hex raws seen n).map (fun j => md5hex (dedupHashInput j))) := by
  intro raws
  induction raws with
  | nil => intro seen n; exact ⟨by simp [acceptedRaws], by simp [acceptedRaws]⟩
  | cons j rest ih =>
      intro seen n
      by_cases hm : md5hex (dedupHashInput j) ∈ seen
      · have heq : acceptedRaws md5hex (j :: rest) seen n = acceptedRaws md5hex rest seen n := by
          simp [acceptedRaws, List.contains, hm]
        rw [heq]
        exact ih seen n
      · by_cases hn : MAX_JOBS ≤ n
        · have heq : acceptedRaws md5hex (j :: rest) seen n = acceptedRaws md5hex rest seen n := by
            simp [acceptedRaws, List.contains, hm, hn]
          rw [heq]
          exact ih seen n
        · have heq : acceptedRaws md5hex (j :: rest) seen n =
              j :: acceptedRaws md5hex rest (md5hex (dedupHashInput j) :: seen) (n + 1) := by
            simp [acceptedRaws, List.contains, hm, hn]
          obtain ⟨ih1, ih2⟩ := ih (md5hex (dedupHashInput j) :: seen) (n + 1)
          rw [heq]
          constructor
          · intro j' hj'
            rcases List.mem_cons.mp hj' with h1 | h1
            · subst h1; exact hm
            · intro hcon
              exact (ih1 j' h1) (List.mem_cons_of_mem _ hcon)
          · rw [List.map_cons]
            refine List.Pairwise.cons ?_ ih2
            intro b hb
            obtain ⟨j', hj', rfl⟩ := List.mem_map.mp hb
            have hnotin := ih1 j' hj'
            intro hcon
            exact hnotin (by rw [← hcon]; exact List.mem_cons_self _ _)

/-- The `urljoin` model used by the concrete scenarios: every scenario href
is already absolute, for which `urljoin(base, href) = href`. -/
def scJoin : String → String → String := fun _ href => href

/-- An anchor to a job URL, as it appears identically on two list pages. -/
def dupAnchor : Anchor :=
  { href := "https://c.com/jobs/ABC-123", title := "Software Engineer II", parentText := none }

/-- First list page of the duplicate-across-pages scenario: one job anchor
and a next-page link. -/
def dupPage1 : Page :=
  { html := "", anchors := [dupAnchor], nextHrefs := [some "https://c.com/p2"],
    pageLinkHrefs := [], titleElems := [], pageText := "", mainContent := none }

/-- Second list page of the duplicate-across-pages scenario: the identical
anchor again. -/
def dupPage2 : Page :=
  { html := "", anchors := [dupAnchor], nextHrefs := [], pageLinkHrefs := [],
    titleElems := [], pageText := "", mainContent := none }

/-- Fetch oracle serving the two list pages; detail fetches fail. -/
def dupFetch : String → Option Page :=
  fun u =>
    if u = "https://c.com/list" then some dupPage1
    else if u = "https://c.com/p2" then some dupPage2
    else none

/-- The candidate produced by `dupAnchor` on either page (the context falls
back to the link text, the anchor having no parent container). -/
def dupRaw : RawJob :=
  { title := "Software Engineer II", job_id := "", url := "https://c.com/jobs/ABC-123",
    context := "Software Engineer II" }

/-- C2: the dedup registry keeps the hashes of the kept jobs pairwise
distinct for every hash function and candidate stream; and in the concrete
duplicate-across-pages scenario, two anchors with identical title and URL on
two different paginated pages yield a document with exactly one JobRecord —
the first-seen one — out of 2 raw candidates. -/
theorem dedup_hashes_distinct (md5hex : String → String) (raws : List RawJob) :
    List.Pairwise (fun a b => a ≠ b)
      ((acceptedRaws md5hex raws [] 0).map (fun j => md5hex (dedupHashInput j))) ∧
    ∃ doc,
      (scrape_single_url none none md5hex id (fun _ => []) scJoin dupFetch "t" "d"
          "https://c.com/list").result = Except.ok doc ∧
      doc.scraping_metadata.total_jobs_found = 2 ∧
      doc.jobs.map (fun j => j.title) = ["Software Engineer II"] := by
  constructor
  · exact (acceptedRaws_spec md5hex raws [] 0).2
  · refine ⟨successDoc md5hex id (fun _ => []) scJoin dupFetch "https://c.com/list" "t" "d"
        dupPage1, rfl, rfl, ?_⟩
    have h1 : collectRaws dupFetch scJoin
        (detect_pagination scJoin dupPage1 "https://c.com/list") = [dupRaw, dupRaw] := by rfl
    have hacc : acceptedRaws md5hex [dupRaw, dupRaw] [] 0 = [dupRaw] := by
      simp [acceptedRaws, List.contains, MAX_JOBS]
    rw [successDoc_jobs, h1, hacc]
    rfl

/-- Anchor to the same job URL under a different link text. -/
def otherTitleAnchor : Anchor :=
  { href := "https://c.com/jobs/ABC-123", title := "Data Analyst Role XY", parentText := none }

/-- First list page of the same-URL-two-titles scenario. -/
def twoTitlePage1 : Page :=
  { html := "", anchors := [dupAnchor], nextHrefs := [some "https://c.com/q2"],
    pageLinkHrefs := [], titleElems := [], pageText := "", mainContent := none }

/-- Second list page of the same-URL-two-titles scenario: the same job URL
under a different anchor title. -/
def twoTitlePage2 : Page :=
  { html := "", anchors := [otherTitleAnchor], nextHrefs := [], pageLinkHrefs := [],
    titleElems := [], pageText := "", mainContent := none }

/-- Fetch oracle for the same-URL-two-titles scenario. -/
def twoTitleFetch : String → Option Page :=
  fun u =>
    if u = "https://c.com/list10" then some twoTitlePage1
    else if u = "https://c.com/q2" then some twoTitlePage2
    else none

/-- The candidate produced by `otherTitleAnchor`. -/
def otherTitleRaw : RawJob :=
  { title := "Data Analyst Role XY", job_id := "", url := "https://c.com/jobs/ABC-123",
    context := "Data Analyst Role XY" }

/-- C10: deduplication hashes title and url together and the per-page URL
dedup set does not span pages, so the same job URL linked under two different
anchor titles on two different list pages produces two JobRecords sharing one
`application.apply_url` (given that the hash function separates the two
distinct title_url inputs, as md5 does here). -/
theorem same_apply_url_two_jobs (md5hex : String → String)
    (hne : md5hex (dedupHashInput dupRaw) ≠ md5hex (dedupHashInput otherTitleRaw)) :
    ∃ doc,
      (scrape_single_url none none md5hex id (fun _ => []) scJoin twoTitleFetch "t" "d"
          "https://c.com/list10").result = Except.ok doc ∧
      doc.jobs.map (fun j => j.application.apply_url) =
        ["https://c.com/jobs/ABC-123", "https://c.com/jobs/ABC-123"] ∧
      doc.jobs.map (fun j => j.title) = ["Software Engineer II", "Data Analyst Role XY"] := by
  refine ⟨successDoc md5hex id (fun _ => []) scJoin twoTitleFetch "https://c.com/list10"
      "t" "d" twoTitlePage1, rfl, ?_, ?_⟩
  all_goals {
    have h1 : collectRaws twoTitleFetch scJoin
        (detect_pagination scJoin twoTitlePage1 "https://c.com/list10") =
        [dupRaw, otherTitleRaw] := by rfl
    have hacc : acceptedRaws md5hex [dupRaw, otherTitleRaw] [] 0 = [dupRaw, otherTitleRaw] := by
      simp [acceptedRaws, List.contains, MAX_JOBS, Ne.symm hne]
    rw [successDoc_jobs, h1, hacc]
    rfl }

/-- Witness for C10: the identity hash already separates the two inputs. -/
theorem same_apply_url_two_jobs_wit :
    ∃ doc,
      (scrape_single_url none none (fun s => s) id (fun _ => []) scJoin twoTitleFetch "t" "d"
          "https://c.com/list10").result = Except.ok doc ∧
      doc.jobs.map (fun j => j.application.apply_url) =
        ["https://c.com/jobs/ABC-123", "https://c.com/jobs/ABC-123"] ∧
      doc.jobs.map (fun j => j.title) = ["Software Engineer II", "Data Analyst Role XY"] :=
  same_apply_url_two_jobs (fun s => s) (by decide)

/-! ## C8: contact emails -/

/-- The contact information of the success-path document, mirroring
scraper.py lines 222-224. -/
lemma successDoc_contact (md5hex : String → String) (enumSet : List String → List String)
    (findEmails : String → List String) (join : String → String → String)
    (fetch : String → Option Page) (url nowIso nowDate : String) (first : Page) :
    (successDoc md5hex enumSet findEmails join fetch url nowIso nowDate first).contact_information =
      if (extract_emails enumSet findEmails first.html).isEmpty then
        { privacy_email := "", accommodation_email := "" }
      else contactOf (extract_emails enumSet findEmails first.html) := rfl

/-- The email findall model for the C8 scenario: two addresses discovered in
this order on the first page. -/
def c8find : String → List String := fun _ => ["A@x.com", "b@x.com"]

/-- The first list page of the C8 scenario. -/
def c8page : Page :=
  { html := "contact page", anchors := [], nextHrefs := [], pageLinkHrefs := [],
    titleElems := [], pageText := "", mainContent := none }

/-- Fetch oracle of the C8 scenario. -/
def c8fetch : String → Option Page :=
  fun u => if u = "https://c.com/c8" then some c8page else none

/-- A legitimate enumeration order of a Python string set that reverses
first-occurrence order: `list(set(...))` may enumerate its elements in any
order, depending on the process hash seed. -/
def revEnum : List String → List String := fun xs => xs.dedup.reverse

/-- C8 counterexample: with a set-enumeration order that reverses discovery
order (which `list(set(...))` does not forbid), the first-discovered address
"a@x.com" lands in the accommodation slot and the second-discovered
"b@x.com" in the privacy slot — the slots are NOT filled in discovery
order. -/
theorem email_order_not_discovery_cex :
    foundEmails c8find c8page.html = ["a@x.com", "b@x.com"] ∧
    (revEnum (foundEmails c8find c8page.html)).Perm (foundEmails c8find c8page.html).dedup ∧
    (∃ doc,
      (scrape_single_url none none (fun s => s) revEnum c8find scJoin c8fetch "t" "d"
          "https://c.com/c8").result = Except.ok doc ∧
      doc.contact_information.privacy_email = "b@x.com" ∧
      doc.contact_information.accommodation_email = "a@x.com") ∧
    ("b@x.com" : String) ≠ "a@x.com" := by
  refine ⟨rfl, List.reverse_perm _,
    ⟨successDoc (fun s => s) revEnum c8find scJoin c8fetch "https://c.com/c8" "t" "d" c8page,
      rfl, rfl, rfl⟩, by decide⟩

/-- C8 amended: whenever the first page carries at least two distinct
non-placeholder addresses, the privacy and accommodation slots receive two
distinct members of the discovered address list — but in the unspecified
enumeration order of `list(set(...))`, not necessarily discovery order. -/
theorem emails_distinct_members (md5hex : String → String)
    (enumSet : List String → List String) (findEmails : String → List String)
    (join : String → String → String) (fetch : String → Option Page)
    (nowIso nowDate url : String) (pg : Page)
    (hEnum : ∀ xs, (enumSet xs).Perm xs.dedup)
    (hfetch : fetch url = some pg)
    (h2 : 2 ≤ (foundEmails findEmails pg.html).dedup.length) :
    ∃ doc,
      (scrape_single_url none none md5hex enumSet findEmails join fetch
          nowIso nowDate url).result = Except.ok doc ∧
      doc.contact_information.privacy_email ∈ foundEmails findEmails pg.html ∧
      doc.contact_information.accommodation_email ∈ foundEmails findEmails pg.html ∧
      doc.contact_information.privacy_email ≠ doc.contact_information.accommodation_email := by
  have hperm := hEnum (foundEmails findEmails pg.html)
  have hlen : 2 ≤ (enumSet (foundEmails findEmails pg.html)).length := by
    rw [hperm.length_eq]; exact h2
  have hnodup : (enumSet (foundEmails findEmails pg.html)).Nodup :=
    hperm.nodup_iff.mpr (List.nodup_dedup _)
  cases henum : enumSet (foundEmails findEmails pg.html) with
  | nil => rw [henum] at hlen; simp at hlen
  | cons e0 rest =>
      cases rest with
      | nil => rw [henum] at hlen; simp at hlen
      | cons e1 tl =>
          have hmem0 : e0 ∈ foundEmails findEmails pg.html := by
            have : e0 ∈ enumSet (foundEmails findEmails pg.html) := by
              rw [henum]; exact List.mem_cons_self _ _
            exact List.mem_dedup.mp (hperm.mem_iff.mp this)
          have hmem1 : e1 ∈ foundEmails findEmails pg.html := by
            have : e1 ∈ enumSet (foundEmails findEmails pg.html) := by
              rw [henum]; exact List.mem_cons_of_mem _ (List.mem_cons_self _ _)
            exact List.mem_dedup.mp (hperm.mem_iff.mp this)
          have hne : e0 ≠ e1 := by
            rw [henum] at hnodup
            intro hcon
            exact (List.nodup_cons.mp hnodup).1 (hcon ▸ List.mem_cons_self _ _)
          have hemails : extract_emails enumSet findEmails pg.html = [e0, e1] := by
            simp [extract_emails, henum]
          refine ⟨successDoc md5hex enumSet findEmails join fetch url nowIso nowDate pg,
            by simp [scrape_single_url, hfetch], ?_, ?_, ?_⟩
          · rw [successDoc_contact, hemails]
            simpa [contactOf] using hmem0
          · rw [successDoc_contact, hemails]
            simpa [contactOf] using hmem1
          · rw [successDoc_contact, hemails]
            simpa [contactOf] using hne

/-- Witness for C8's amended statement: the first-occurrence enumeration
(`List.dedup` itself) on the concrete two-address page. -/
theorem emails_distinct_members_wit :
    ∃ doc,
      (scrape_single_url none none (fun s => s) List.dedup c8find scJoin c8fetch
          "t" "d" "https://c.com/c8").result = Except.ok doc ∧
      doc.contact_information.privacy_email ∈ foundEmails c8find c8page.html ∧
      doc.contact_information.accommodation_email ∈ foundEmails c8find c8page.html ∧
      doc.contact_information.privacy_email ≠ doc.contact_information.accommodation_email :=
  emails_distinct_members (fun s => s) List.dedup c8find scJoin c8fetch "t" "d"
    "https://c.com/c8" c8page (fun xs => List.Perm.refl xs.dedup) rfl (by decide)
